import Mathlib

/-!
Shallow embedding of the `denkovi_relayboard` repository (relay-board
control over pluggable transport backends), together with theorems that
settle the frozen claims C1..C10 about its specification.

Conventions of the embedding:
* Python `bytes` values are `List Nat` (each entry a byte value).
* Python exceptions are the `Err` inductive; fallible code returns
  `Except Err α` paired with the post-state (a Python exception leaves the
  side effects performed so far in place, so the state is always returned).
* Every backend call performed by a board codec is recorded in a `trace`
  field of the backend state, as an `Ev` event.
* Boards are polymorphic over their backend exactly as in the source:
  each board method takes a record of backend operations.
-/

namespace Denkovi

/-- A backend call observable at the transport boundary. -/
inductive Ev where
  | write (data : List Nat)
  | read (size : Option Nat)
  | getBitMode
  | setBitMode (mask mode : Nat)
  | nativeOpen (serial : String)
  | nativeClose
  | nativeCall (name : String)
  deriving DecidableEq

/-- Python exceptions raised by the embedded code.
`stateOverflow` is `DenkoviRelayBoardStateOverflowException(max_channel)`,
`ftdDeviceNotOpen` is `FTD2XXDeviceNotOpenException`. -/
inductive Err where
  | stateOverflow (maxChannel : Nat)
  | runtimeError (msg : String)
  | valueError (msg : String)
  | indexError
  | assertionError
  | ftdDeviceNotOpen
  deriving DecidableEq

/-- Python truthiness of an `Optional[str]` argument: `None` and `""` are falsy. -/
def pyTruthy : Option String → Bool
  | none => false
  | some s => !(s == "")

/-- Python sequence read `xs[i]`, including negative-index semantics. -/
def pyGetItem (xs : List α) (i : Int) : Except Err α :=
  if h : 0 ≤ i ∧ i.toNat < xs.length then .ok (xs.get ⟨i.toNat, h.2⟩)
  else if h2 : i < 0 ∧ (-i).toNat ≤ xs.length then
    .ok (xs.get ⟨xs.length - (-i).toNat, by omega⟩)
  else .error .indexError

/-- Python list item assignment `xs[i] = v`, including negative-index semantics. -/
def pySetItem (xs : List α) (i : Int) (v : α) : Except Err (List α) :=
  if 0 ≤ i ∧ i.toNat < xs.length then .ok (xs.set i.toNat v)
  else if i < 0 ∧ (-i).toNat ≤ xs.length then .ok (xs.set (xs.length - (-i).toNat) v)
  else .error .indexError

/-- Python `1 << b` for a possibly negative shift amount. -/
def pyShl (a : Nat) (b : Int) : Except Err Nat :=
  if b < 0 then .error (.valueError "negative shift count")
  else .ok (a <<< b.toNat)

/-- Python `x & (1 << i) != 0` on nonnegative ints (bit test). -/
def pyBitTest (x i : Nat) : Bool := x &&& (1 <<< i) != 0

/-- The loop `for itr in addr_: target_states[itr - 1] = logic` shared by all
`set_state`/`set_clear_state` implementations (`addr_` is a Python `set`, so
the iteration order is unspecified; all iterations write the same value, so
the result does not depend on the order and we fold over the deduplicated list). -/
def mergeStates (orig : List Bool) (addrs : List Int) (v : Bool) : Except Err (List Bool) :=
  addrs.foldl
    (fun acc a =>
      match acc with
      | .error e => .error e
      | .ok ts => pySetItem ts (a - 1) v)
    (.ok orig)

/-- `any(state < 1 or state > n for state in states)` — the shared
`__integrity_check` condition with channel bound `n`. -/
def integrityViolated (n : Nat) (addrs : List Int) : Bool :=
  addrs.any (fun a => a < 1 || a > (n : Int))

/-- Little-endian bit accumulation; `bitsVal [b0, b1, ...] = b0 + 2*b1 + ...`.
Used to reason about the byte-encoding sums of the source. -/
def bitsVal : List Bool → Nat
  | [] => 0
  | b :: rest => (cond b 1 0) + 2 * bitsVal rest

/-- The capability set a stream board codec requires of its backend
(`write(bytes)` and `read(size=None)`), acting on an abstract backend
state `σ`. -/
structure BEOps (σ : Type) where
  write : σ → List Nat → σ
  read : σ → Option Nat → List Nat × σ

/-- The capability set a bit-bang board codec requires of its backend. -/
structure BitOps (σ : Type) where
  write : σ → List Nat → σ
  set_bit_mode : σ → Nat → Nat → σ
  get_bit_mode : σ → Nat × σ

namespace D16

/- `DenkoviRelayBoard16Ch` (implements/denkovi_16ch.py). Class constants,
as byte lists: `EOC_PATTERN = b"//"`, `ASK_COMMAND = b"ask"`,
`POSITIVE_LOGIC_PATTERN = b"+"`, `NEGATIVE_LOGIC_PATTERN = b"-"`,
`ON_COMMAND = b"on"`, `OFF_COMMAND = b"off"`, `MULTIPLE_COMMAND = b"x"`. -/

def EOC_PATTERN : List Nat := [0x2F, 0x2F]
def ASK_COMMAND : List Nat := [0x61, 0x73, 0x6B]
def POSITIVE_LOGIC_PATTERN : List Nat := [0x2B]
def NEGATIVE_LOGIC_PATTERN : List Nat := [0x2D]
def ON_COMMAND : List Nat := [0x6F, 0x6E]
def OFF_COMMAND : List Nat := [0x6F, 0x66, 0x66]
def MULTIPLE_COMMAND : List Nat := [0x78]

def max_channel : Nat := 16

/-- `str(addr).zfill(2).encode()` for the post-integrity-check range 1..16. -/
def addrPattern (addr : Int) : List Nat :=
  [0x30 + addr.toNat / 10, 0x30 + addr.toNat % 10]

/-- `byte1 = sum((1 << i) for i in range(8) if states[7 - i])` of
`_set_multiple_states` (channels 1..8, most significant bit first). -/
def byte1Of (states : List Bool) : Nat :=
  (((List.range 8).filter (fun i => states.getD (7 - i) false)).map
    (fun i => 1 <<< i)).sum

/-- `byte2 = sum((1 << i) for i in range(8) if states[15 - i])` of
`_set_multiple_states` (channels 9..16, most significant bit first). -/
def byte2Of (states : List Bool) : Nat :=
  (((List.range 8).filter (fun i => states.getD (15 - i) false)).map
    (fun i => 1 <<< i)).sum

/-- The decode loop of `get_all_states`:
`states.extend([bool(byte1 & (1 << bit)) for bit in range(7, -1, -1)])`
and the same for `byte2`. -/
def decode16 (byte1 byte2 : Nat) : List Bool :=
  ((List.range 8).map (fun i => pyBitTest byte1 (7 - i))) ++
  ((List.range 8).map (fun i => pyBitTest byte2 (7 - i)))

/-- `set_all_states_on`: send `on//`, then drain a 4-byte acknowledgement. -/
def set_all_states_on (B : BEOps σ) : Option σ → Except Err Unit × Option σ
  | none => (.error (.runtimeError "Backend is not open"), none)
  | some s =>
    let s1 := B.write s (ON_COMMAND ++ EOC_PATTERN)
    let (_, s2) := B.read s1 (some 4)
    (.ok (), some s2)

/-- `set_all_states_off`: send `off//`, then drain a 5-byte acknowledgement. -/
def set_all_states_off (B : BEOps σ) : Option σ → Except Err Unit × Option σ
  | none => (.error (.runtimeError "Backend is not open"), none)
  | some s =>
    let s1 := B.write s (OFF_COMMAND ++ EOC_PATTERN)
    let (_, s2) := B.read s1 (some 5)
    (.ok (), some s2)

/-- `get_all_states`: drain stale input, send `ask//`, read exactly 2 bytes,
raise on a short reply, decode most-significant-bit-first. -/
def get_all_states (B : BEOps σ) : Option σ → Except Err (List Bool) × Option σ
  | none => (.error (.runtimeError "Backend is not open"), none)
  | some s =>
    let (_, s1) := B.read s none
    let s2 := B.write s1 (ASK_COMMAND ++ EOC_PATTERN)
    let (dat, s3) := B.read s2 (some 2)
    if dat.length = 2 then
      (.ok (decode16 (dat.getD 0 0) (dat.getD 1 0)), some s3)
    else
      (.error (.runtimeError "Invalid response length"), some s3)

/-- `_set_multiple_states`: length guard, encode the two bytes, send
`x` + 2 raw bytes + `//`, drain a 5-byte acknowledgement. -/
def set_multiple_states (B : BEOps σ) (states : List Bool) :
    Option σ → Except Err Unit × Option σ
  | none => (.error (.runtimeError "Backend is not open"), none)
  | some s =>
    if states.length ≠ 16 then
      (.error (.valueError "The length of states must be 16."), some s)
    else
      let s1 := B.write s (MULTIPLE_COMMAND ++ [byte1Of states, byte2Of states] ++ EOC_PATTERN)
      let (_, s2) := B.read s1 (some 5)
      (.ok (), some s2)

/-- `_set_single_state`: re-check the address, send the zero-padded 2-digit
address + sign + `//`, drain a 5-byte acknowledgement. -/
def set_single_state (B : BEOps σ) (logic : Bool) (addr : Int) :
    Option σ → Except Err Unit × Option σ
  | none => (.error (.runtimeError "Backend is not open"), none)
  | some s =>
    if integrityViolated max_channel [addr] then
      (.error (.stateOverflow max_channel), some s)
    else
      let logicPattern := if logic then POSITIVE_LOGIC_PATTERN else NEGATIVE_LOGIC_PATTERN
      let s1 := B.write s (addrPattern addr ++ logicPattern ++ EOC_PATTERN)
      let (_, s2) := B.read s1 (some 5)
      (.ok (), some s2)

/-- `set_state`: dedupe, check, then either the single-address fast path or
read-modify-write through `_set_multiple_states`. -/
def set_state (B : BEOps σ) (logic : Bool) (addr : List Int) :
    Option σ → Except Err Unit × Option σ
  | none => (.error (.runtimeError "Backend is not open"), none)
  | some s =>
    let addrSet := addr.dedup
    if integrityViolated max_channel addrSet then
      (.error (.stateOverflow max_channel), some s)
    else if addrSet.length = 1 then
      set_single_state B logic (addrSet.headD 0) (some s)
    else
      match get_all_states B (some s) with
      | (.error e, s1) => (.error e, s1)
      | (.ok states, s1) =>
        match mergeStates states addrSet logic with
        | .error e => (.error e, s1)
        | .ok target => set_multiple_states B target s1

/-- `set_clear_state`: dedupe, check, then delegate to `set_all_states_off`
when the logic flag is false, else write the fresh 16-bit word holding only
the requested set. -/
def set_clear_state (B : BEOps σ) (logic : Bool) (addr : List Int) :
    Option σ → Except Err Unit × Option σ
  | none => (.error (.runtimeError "Backend is not open"), none)
  | some s =>
    let addrSet := addr.dedup
    if integrityViolated max_channel addrSet then
      (.error (.stateOverflow max_channel), some s)
    else if !logic then
      set_all_states_off B (some s)
    else
      match mergeStates (List.replicate 16 false) addrSet true with
      | .error e => (.error e, some s)
      | .ok target => set_multiple_states B target (some s)

/-- `get_state`: check the single address, then index into `get_all_states`. -/
def get_state (B : BEOps σ) (addr : Int) :
    Option σ → Except Err Bool × Option σ
  | none => (.error (.runtimeError "Backend is not open"), none)
  | some s =>
    if integrityViolated max_channel [addr] then
      (.error (.stateOverflow max_channel), some s)
    else
      match get_all_states B (some s) with
      | (.error e, s1) => (.error e, s1)
      | (.ok states, s1) =>
        match pyGetItem states (addr - 1) with
        | .error e => (.error e, s1)
        | .ok b => (.ok b, s1)

/-- `close`: release the backend once, then null the reference; a second
close is a no-op. `cl` is the backend's own `close`. -/
def close (cl : σ → Except Err Unit × σ) :
    Option σ → Except Err Unit × Option σ
  | none => (.ok (), none)
  | some s =>
    match cl s with
    | (.ok _, _) => (.ok (), none)
    | (.error e, s1) => (.error e, some s1)

end D16

/-- A stream backend driven by a script of canned read replies: each `read`
call consumes the next chunk (bounded reads return at most `size` bytes of
it — a short chunk models a transport timeout returning a short read).
Writes only log. Used to state codec-level claims for arbitrary device
responses. -/
structure Script where
  pending : List (List Nat)
  trace : List Ev
  deriving DecidableEq

def scriptOps : BEOps Script where
  write s d := { s with trace := s.trace ++ [.write d] }
  read s sz :=
    match s.pending with
    | [] => ([], { s with trace := s.trace ++ [.read sz] })
    | r :: rest =>
      (match sz with
       | some n => r.take n
       | none => r,
       { pending := rest, trace := s.trace ++ [.read sz] })

namespace Dev16

/-- Modelled from the spec: the physical 16-channel board (out of scope of
the source, specified at its boundary in §4.3) — an ASCII command
interpreter holding a 16-entry relay word and an output byte buffer.
`on//` and `off//` set all channels and queue a 4- or 5-byte acknowledgement,
`ask//` queues the two state bytes (most significant bit first),
`x` + 2 bytes + `//` loads the full word, and a zero-padded 2-digit
address + `+`/`-` + `//` sets one channel; acknowledgement bytes are
uninterpreted (modelled as zeros). -/
structure State where
  word : List Bool
  outbox : List Nat
  trace : List Ev
  deriving DecidableEq

def isDigit (b : Nat) : Bool := 0x30 ≤ b && b ≤ 0x39

def parse (w : List Bool) (data : List Nat) : List Bool × List Nat :=
  if data = D16.ON_COMMAND ++ D16.EOC_PATTERN then
    (List.replicate 16 true, List.replicate 4 0)
  else if data = D16.OFF_COMMAND ++ D16.EOC_PATTERN then
    (List.replicate 16 false, List.replicate 5 0)
  else if data = D16.ASK_COMMAND ++ D16.EOC_PATTERN then
    (w, [D16.byte1Of w, D16.byte2Of w])
  else
    match data with
    | [0x78, b1, b2, 0x2F, 0x2F] => (D16.decode16 b1 b2, List.replicate 5 0)
    | [d1, d2, sgn, 0x2F, 0x2F] =>
      if isDigit d1 && isDigit d2 && (sgn = 0x2B || sgn = 0x2D) then
        let a := (d1 - 0x30) * 10 + (d2 - 0x30)
        if 1 ≤ a ∧ a ≤ 16 then
          (w.set (a - 1) (sgn = 0x2B), List.replicate 5 0)
        else (w, [])
      else (w, [])
    | _ => (w, [])

def ops : BEOps State where
  write s d :=
    let (w, ack) := parse s.word d
    { word := w, outbox := s.outbox ++ ack, trace := s.trace ++ [.write d] }
  read s sz :=
    match sz with
    | none => (s.outbox, { s with outbox := [], trace := s.trace ++ [.read none] })
    | some n => (s.outbox.take n, { s with outbox := s.outbox.drop n, trace := s.trace ++ [.read (some n)] })

end Dev16

/-- `sum(1 << i for i in range(8) if target_states[i])` — the byte encoding
shared by the bit-bang `set_state`/`set_clear_state` implementations
(bit `i` = channel `i+1`). -/
def encodeByte8 (target_states : List Bool) : Nat :=
  (((List.range 8).filter (fun i => target_states.getD i false)).map
    (fun i => 1 <<< i)).sum

namespace D8

/- `DenkoviRelayBoard8Ch` (implements/denkovi_8ch.py):
bit-bang GPIO protocol over a backend exposing `set_bit_mode`/`get_bit_mode`. -/

def FT_SYNCHRONOUS_BIT_BANG_MODE : Nat := 0x04
def BIT_MASK : Nat := 0xFF
def max_channel : Nat := 8

def set_all_states_on (B : BitOps σ) : Option σ → Except Err Unit × Option σ
  | none => (.error (.runtimeError "Backend is not open"), none)
  | some s => (.ok (), some (B.write s [0xFF]))

def set_all_states_off (B : BitOps σ) : Option σ → Except Err Unit × Option σ
  | none => (.error (.runtimeError "Backend is not open"), none)
  | some s => (.ok (), some (B.write s [0x00]))

/-- `get_all_states`: read the live GPIO register, decode bits 0..7 as
channels 1..8. -/
def get_all_states (B : BitOps σ) : Option σ → Except Err (List Bool) × Option σ
  | none => (.error (.runtimeError "Backend is not open"), none)
  | some s =>
    let (r, s1) := B.get_bit_mode s
    (.ok ((List.range 8).map (fun i => pyBitTest r i)), some s1)

/-- `get_state`: check the address, then `get_bit_mode() & (1 << (addr - 1)) != 0`. -/
def get_state (B : BitOps σ) (addr : Int) : Option σ → Except Err Bool × Option σ
  | none => (.error (.runtimeError "Backend is not open"), none)
  | some s =>
    if integrityViolated max_channel [addr] then
      (.error (.stateOverflow max_channel), some s)
    else
      let (r, s1) := B.get_bit_mode s
      match pyShl 1 (addr - 1) with
      | .error e => (.error e, some s1)
      | .ok mask => (.ok (r &&& mask != 0), some s1)

/-- `set_state`: check, read current state, overwrite the listed positions,
write the merged byte. -/
def set_state (B : BitOps σ) (logic : Bool) (addr : List Int) :
    Option σ → Except Err Unit × Option σ
  | none => (.error (.runtimeError "Backend is not open"), none)
  | some s =>
    let addrSet := addr.dedup
    if integrityViolated max_channel addrSet then
      (.error (.stateOverflow max_channel), some s)
    else
      match get_all_states B (some s) with
      | (.error e, s1) => (.error e, s1)
      | (.ok original, s1) =>
        match mergeStates original addrSet logic with
        | .error e => (.error e, s1)
        | .ok target =>
          match s1 with
          | none => (.error (.runtimeError "Backend is not open"), none)
          | some s2 => (.ok (), some (B.write s2 [encodeByte8 target]))

/-- `set_clear_state`: check, then all-off when the flag is false, else
write the byte holding exactly the requested set. -/
def set_clear_state (B : BitOps σ) (logic : Bool) (addr : List Int) :
    Option σ → Except Err Unit × Option σ
  | none => (.error (.runtimeError "Backend is not open"), none)
  | some s =>
    let addrSet := addr.dedup
    if integrityViolated max_channel addrSet then
      (.error (.stateOverflow max_channel), some s)
    else if !logic then
      set_all_states_off B (some s)
    else
      match mergeStates (List.replicate 8 false) addrSet true with
      | .error e => (.error e, some s)
      | .ok target => (.ok (), some (B.write s [encodeByte8 target]))

def close (cl : σ → Except Err Unit × σ) :
    Option σ → Except Err Unit × Option σ
  | none => (.ok (), none)
  | some s =>
    match cl s with
    | (.ok _, _) => (.ok (), none)
    | (.error e, s1) => (.error e, some s1)

end D8

namespace FT422

/- `DenkoviRelayBoard4ChFT422` (implements/denkovi_4ch.py): a 4-channel
board over the same bit-bang protocol.  Unlike the other boards its
`backend` attribute is never `None`, so its methods carry no
backend-is-open guard, and `get_state` performs no integrity check. -/

def FT_SYNCHRONOUS_BIT_BANG_MODE : Nat := 0x04
def BIT_MASK : Nat := 0xFF
def max_channel : Nat := 4

def set_all_states_on (B : BitOps σ) (s : σ) : Except Err Unit × σ :=
  (.ok (), B.write s [0xFF])

def set_all_states_off (B : BitOps σ) (s : σ) : Except Err Unit × σ :=
  (.ok (), B.write s [0x00])

/-- `get_state`: `self.backend.get_bit_mode() & (1 << (addr - 1)) != 0` —
no integrity check, no guard. -/
def get_state (B : BitOps σ) (addr : Int) (s : σ) : Except Err Bool × σ :=
  let (r, s1) := B.get_bit_mode s
  match pyShl 1 (addr - 1) with
  | .error e => (.error e, s1)
  | .ok mask => (.ok (r &&& mask != 0), s1)

/-- `get_all_states`: all 8 bits of the GPIO register, although
`max_channel` is 4. -/
def get_all_states (B : BitOps σ) (s : σ) : Except Err (List Bool) × σ :=
  let (r, s1) := B.get_bit_mode s
  (.ok ((List.range 8).map (fun i => pyBitTest r i)), s1)

def set_state (B : BitOps σ) (logic : Bool) (addr : List Int) (s : σ) :
    Except Err Unit × σ :=
  let addrSet := addr.dedup
  if integrityViolated max_channel addrSet then
    (.error (.stateOverflow max_channel), s)
  else
    match get_all_states B s with
    | (.error e, s1) => (.error e, s1)
    | (.ok original, s1) =>
      match mergeStates original addrSet logic with
      | .error e => (.error e, s1)
      | .ok target => (.ok (), B.write s1 [encodeByte8 target])

def set_clear_state (B : BitOps σ) (logic : Bool) (addr : List Int) (s : σ) :
    Except Err Unit × σ :=
  let addrSet := addr.dedup
  if integrityViolated max_channel addrSet then
    (.error (.stateOverflow max_channel), s)
  else if !logic then
    set_all_states_off B s
  else
    match mergeStates (List.replicate 8 false) addrSet true with
    | .error e => (.error e, s)
    | .ok target => (.ok (), B.write s [encodeByte8 target])

/-- `close`: delegates to the backend's `close` unguarded. -/
def close (cl : σ → Except Err Unit × σ) (s : σ) : Except Err Unit × σ :=
  cl s

end FT422

/-- Instrumented bit-bang backend: the GPIO register driven by the last
written byte (synchronous bit-bang: every written byte drives the output
pins, and `get_bit_mode` reads the live pin state — modelled from the
spec's §4.3 bit-bang family description). -/
structure BB where
  reg : Nat
  trace : List Ev
  deriving DecidableEq

def bbOps : BitOps BB where
  write s d := { reg := d.getLastD s.reg, trace := s.trace ++ [.write d] }
  set_bit_mode s mask mode := { s with trace := s.trace ++ [.setBitMode mask mode] }
  get_bit_mode s := (s.reg, { s with trace := s.trace ++ [.getBitMode] })

namespace MCP

/- `DenkoviRelayBoard4ChMCP2200` (implements/denkovi_4ch.py): 4-channel
HID-report protocol. -/

def READ_ALL_OPCODE : Nat := 0x80
def SET_CLEAR_OUT_OPCODE : Nat := 0x08
def IO_PORT_VAL_BMAP_IDX : Nat := 10
def max_channel : Nat := 4

/-- `data_[11] = sum(1 << i for i in range(4) if states[i])`. -/
def bitmap4 (states : List Bool) : Nat :=
  (((List.range 4).filter (fun i => states.getD i false)).map
    (fun i => 1 <<< i)).sum

/-- `__construct_control_bytes`: a 16-byte buffer, byte 0 the set/clear
opcode, byte 11 the channel bitmap, byte 12 its complement (`^ 0xFF`). -/
def construct_control_bytes (states : List Bool) : List Nat :=
  (((List.replicate 16 0).set 0 SET_CLEAR_OUT_OPCODE).set 11 (bitmap4 states)).set 12
    (bitmap4 states ^^^ 0xFF)

/-- `__send_read_all_opcode`: a 16-byte buffer with byte 0 = `0x80`. -/
def read_all_buffer : List Nat := (List.replicate 16 0).set 0 READ_ALL_OPCODE

def set_all_states_on (B : BEOps σ) : Option σ → Except Err Unit × Option σ
  | none => (.error (.runtimeError "Backend is not open"), none)
  | some s => (.ok (), some (B.write s (construct_control_bytes [true, true, true, true])))

def set_all_states_off (B : BEOps σ) : Option σ → Except Err Unit × Option σ
  | none => (.error (.runtimeError "Backend is not open"), none)
  | some s => (.ok (), some (B.write s (construct_control_bytes [false, false, false, false])))

/-- `get_all_states`: send the read-all opcode, read 16 bytes, decode the
4 low bits of byte 10. -/
def get_all_states (B : BEOps σ) : Option σ → Except Err (List Bool) × Option σ
  | none => (.error (.runtimeError "Backend is not open"), none)
  | some s =>
    let s1 := B.write s read_all_buffer
    let (dat, s2) := B.read s1 (some 16)
    match pyGetItem dat (IO_PORT_VAL_BMAP_IDX : Int) with
    | .error e => (.error e, some s2)
    | .ok b => (.ok ((List.range 4).map (fun i => pyBitTest b i)), some s2)

/-- `get_state`: `self.get_all_states()[addr - 1]` — no integrity check. -/
def get_state (B : BEOps σ) (addr : Int) : Option σ → Except Err Bool × Option σ
  | none => (.error (.runtimeError "Backend is not open"), none)
  | some s =>
    match get_all_states B (some s) with
    | (.error e, s1) => (.error e, s1)
    | (.ok states, s1) =>
      match pyGetItem states (addr - 1) with
      | .error e => (.error e, s1)
      | .ok b => (.ok b, s1)

def set_state (B : BEOps σ) (logic : Bool) (addr : List Int) :
    Option σ → Except Err Unit × Option σ
  | none => (.error (.runtimeError "Backend is not open"), none)
  | some s =>
    let addrSet := addr.dedup
    if integrityViolated max_channel addrSet then
      (.error (.stateOverflow max_channel), some s)
    else
      match get_all_states B (some s) with
      | (.error e, s1) => (.error e, s1)
      | (.ok original, s1) =>
        match mergeStates original addrSet logic with
        | .error e => (.error e, s1)
        | .ok target =>
          match s1 with
          | none => (.error (.runtimeError "Backend is not open"), none)
          | some s2 => (.ok (), some (B.write s2 (construct_control_bytes target)))

/-- `set_clear_state`: `target_states = [(i + 1) in addr_ for i in range(4)]`
when the flag is true, else `set_all_states_off()`. -/
def set_clear_state (B : BEOps σ) (logic : Bool) (addr : List Int) :
    Option σ → Except Err Unit × Option σ
  | none => (.error (.runtimeError "Backend is not open"), none)
  | some s =>
    let addrSet := addr.dedup
    if integrityViolated max_channel addrSet then
      (.error (.stateOverflow max_channel), some s)
    else if !logic then
      set_all_states_off B (some s)
    else
      let target := (List.range 4).map (fun i => decide (((i : Int) + 1) ∈ addrSet))
      (.ok (), some (B.write s (construct_control_bytes target)))

def close (cl : σ → Except Err Unit × σ) :
    Option σ → Except Err Unit × Option σ
  | none => (.ok (), none)
  | some s =>
    match cl s with
    | (.ok _, _) => (.ok (), none)
    | (.error e, s1) => (.error e, some s1)

end MCP

/-- Instrumented HID backend: the device latches byte 11 of a set/clear
report as its output bitmap, and answers reads with the 16-byte response
whose byte 10 mirrors that bitmap (modelled from the spec's §4.3 HID
family description; the real backend prepends a report-id byte on the
wire, which the device strips again and which no claim observes). -/
structure HIDDev where
  port : Nat
  trace : List Ev
  deriving DecidableEq

def hidOps : BEOps HIDDev where
  write s d :=
    { port := if d.getD 0 0 = MCP.SET_CLEAR_OUT_OPCODE then d.getD 11 0 else s.port,
      trace := s.trace ++ [.write d] }
  read s sz :=
    let n := match sz with | some n => n | none => 0
    ((List.range n).map (fun i => if i = 10 then s.port else 0),
     { s with trace := s.trace ++ [.read sz] })

/-- The backend capability surface a board constructor touches (`open`,
`set_bit_mode`, `close`), each fallible — failure injection stands for a
native-layer error. -/
structure BoardBE (σ : Type) where
  openB : σ → Except Err Unit × σ
  set_bit_mode : σ → Nat → Nat → Except Err Unit × σ
  closeB : σ → Except Err Unit × σ

/-- `DenkoviRelayBoard8Ch.__init__`: store the backend, `open` it, then put
it into synchronous bit-bang mode; any error propagates with the stored
backend in whatever state the failing call left it. -/
def D8.init (B : BoardBE σ) (backend : σ) : Except Err Unit × Option σ :=
  match B.openB backend with
  | (.error e, be1) => (.error e, some be1)
  | (.ok _, be1) =>
    match B.set_bit_mode be1 D8.BIT_MASK D8.FT_SYNCHRONOUS_BIT_BANG_MODE with
    | (.error e, be2) => (.error e, some be2)
    | (.ok _, be2) => (.ok (), some be2)

/-- `DenkoviRelayBoard4ChFT422.__init__`: same shape as the 8-channel
constructor. -/
def FT422.init (B : BoardBE σ) (backend : σ) : Except Err Unit × σ :=
  match B.openB backend with
  | (.error e, be1) => (.error e, be1)
  | (.ok _, be1) =>
    match B.set_bit_mode be1 FT422.BIT_MASK FT422.FT_SYNCHRONOUS_BIT_BANG_MODE with
    | (.error e, be2) => (.error e, be2)
    | (.ok _, be2) => (.ok (), be2)

/-- An instrumented constructor backend whose `open` succeeds and whose
`set_bit_mode` fails with a native error — the half-constructed-board
scenario of §5. -/
structure CtorBE where
  opened : Bool
  trace : List Ev
  deriving DecidableEq

def ctorFailBE : BoardBE CtorBE where
  openB s := (.ok (), { opened := true, trace := s.trace ++ [.nativeOpen "SN"] })
  set_bit_mode s mask mode :=
    (.error (.runtimeError "FT_SetBitMode failed"),
     { s with trace := s.trace ++ [.setBitMode mask mode] })
  closeB s := (.ok (), { opened := false, trace := s.trace ++ [.nativeClose] })

/-- One record of the OS serial-port enumeration
(`serial.tools.list_ports.comports()`): a device path and an optional
OS-reported serial number. -/
structure PortInfo where
  device : String
  serial_number : Option String
  deriving DecidableEq

/-- One record of the vendor-library device enumeration
(`PyFTD2XXWrapper.get_devices_info()`): the chip-reported serial number. -/
structure FtdiDevInfo where
  serial_number : String
  deriving DecidableEq

/-- The enumeration environment a backend resolves identifiers against. -/
structure OSEnv where
  comports : List PortInfo
  ftdiDevices : List FtdiDevInfo
  deriving DecidableEq

/-- Python `needle in hay` on strings (substring containment). -/
def pyInStr (needle hay : String) : Bool :=
  hay.toList.tails.any (fun t => needle.toList.isPrefixOf t)

/-- Python `s.lower()` (character-wise lower-casing). -/
def pyLower (s : String) : String := ⟨s.data.map Char.toLower⟩

/-- Python `s[:-1]` on a string: everything but the last character. -/
def pyDropLast (s : String) : String := ⟨s.data.dropLast⟩

namespace FTDB

/- `FTD2XXBackend` (backends/ftd2xx_backend.py) over the vendor library
wrapper `PyFTD2XXWrapper` (ftd2xx_python/core.py). The native library is
out of scope; opening an enumerated serial is modelled as succeeding and
is recorded as a `nativeOpen` trace event. -/

structure State where
  handleOpen : Bool
  serial_number : Option String
  port : Option String
  timeout : Int
  trace : List Ev
  deriving DecidableEq

/-- The state `__init__` leaves behind: wrapper constructed, nothing open. -/
def initState : State :=
  { handleOpen := false, serial_number := none, port := none, timeout := 5000, trace := [] }

/-- `__get_port_by_serial_number`: first COM port whose OS serial number,
lower-cased and with its last character stripped, equals the lower-cased
requested serial number. -/
def get_port_by_serial_number (env : OSEnv) (serial_number : String) : Option String :=
  env.comports.findSome? fun d =>
    match d.serial_number with
    | none => none
    | some s => if pyDropLast (pyLower s) == pyLower serial_number then some d.device else none

/-- `__get_actual_serial_number`: first chip serial equal to the requested
one up to case. -/
def get_actual_serial_number (env : OSEnv) (serial_number : String) : Option String :=
  env.ftdiDevices.findSome? fun d =>
    if pyLower d.serial_number == pyLower serial_number then some d.serial_number else none

/-- `__get_serial_number_by_port`: first COM port matching the path up to
case; asserts the OS serial is present, strips its last character and maps
it back to the chip serial. -/
def get_serial_number_by_port (env : OSEnv) (port : String) : Except Err (Option String) :=
  match env.comports.find? (fun d => pyLower d.device == pyLower port) with
  | none => .ok none
  | some d =>
    match d.serial_number with
    | none => .error .assertionError
    | some s => .ok (get_actual_serial_number env (pyDropLast s))

/-- `_open_by_serial_number` → `PyFTD2XXWrapper.ft_open_by_serial_number`. -/
def open_by_serial_number (st : State) (sn : String) : State :=
  { st with handleOpen := true, trace := st.trace ++ [.nativeOpen sn] }

/-- The tail of `open`: native open plus the three line-parameter calls. -/
def finishOpen (st : State) (sn : String) (timeout : Int) : Except Err Unit × State :=
  let st1 := open_by_serial_number { st with timeout := timeout } sn
  (.ok (),
   { st1 with
     trace := st1.trace ++
       [.nativeCall "FT_SetBaudRate", .nativeCall "FT_SetDataCharacteristics",
        .nativeCall "FT_SetTimeouts"] })

/-- `FTD2XXBackend.open`. -/
def openB (env : OSEnv) (device_address serial_number : Option String)
    (timeout : Int) (st : State) : Except Err Unit × State :=
  if pyTruthy device_address == pyTruthy serial_number then
    (.error (.valueError "Either device_address or serial_number must be provided for FTD2XX backend"), st)
  else
    match device_address with
    | none =>
      match serial_number with
      | none => (.error .assertionError, st)
      | some sn =>
        match get_actual_serial_number env sn with
        | none =>
          (.error (.valueError "No FTDI device found with serial number"),
           { st with serial_number := none })
        | some act =>
          let st1 := { st with serial_number := some act,
                               port := get_port_by_serial_number env act }
          finishOpen st1 act timeout
    | some da =>
      let st1 := { st with port := some da }
      match get_serial_number_by_port env da with
      | .error e => (.error e, st1)
      | .ok none =>
        (.error (.valueError "No FTDI device found with port"),
         { st1 with serial_number := none })
      | .ok (some sn) => finishOpen { st1 with serial_number := some sn } sn timeout

/-- `FTD2XXBackend.close` → `PyFTD2XXWrapper.ft_close`: raises
`FTD2XXDeviceNotOpenException` when no handle is open. -/
def close (st : State) : Except Err Unit × State :=
  if st.handleOpen then
    (.ok (), { st with handleOpen := false, trace := st.trace ++ [.nativeClose] })
  else (.error .ftdDeviceNotOpen, st)

/-- `_open_by_port`: look the port up in the OS enumeration (exact path
match), then find the chip whose serial equals the OS serial with its last
character stripped — compared case-sensitively — and open it. -/
def open_by_port (env : OSEnv) (port : String) (st : State) : Except Err Unit × State :=
  match env.comports.find? (fun d => d.device == port) with
  | none => (.error (.valueError "Port not found in available COM ports"), st)
  | some d =>
    match d.serial_number with
    | none => (.error (.valueError "Port not found in available COM ports"), st)
    | some s =>
      match env.ftdiDevices.findSome?
          (fun fd => if fd.serial_number == pyDropLast s then some fd.serial_number else none) with
      | none => (.error (.valueError "No FTDI device found with serial number for port"), st)
      | some m => (.ok (), open_by_serial_number st m)

end FTDB

namespace VCPB

/- `VCPBackend` (backends/vcp_backend.py). The pyserial `Serial` object is
modelled as `serialObj : Option Bool` (present / is_open); constructing it
is the native open, recorded as a `nativeOpen` event. -/

structure State where
  serialObj : Option Bool
  port : Option String
  serial_number : Option String
  timeout : Int
  trace : List Ev
  deriving DecidableEq

def initState : State :=
  { serialObj := none, port := none, serial_number := none, timeout := 5000, trace := [] }

/-- `__get_port_by_serial_number`: first COM port whose serial number
contains the requested one, compared lower-cased. -/
def get_port_by_serial_number (env : OSEnv) (serial_number : String) : Option String :=
  env.comports.findSome? fun p =>
    match p.serial_number with
    | none => none
    | some s => if pyInStr (pyLower serial_number) (pyLower s) then some p.device else none

/-- `__get_serial_number_by_port`: serial number of the first exact path
match, if any. -/
def get_serial_number_by_port (env : OSEnv) (device_address : String) : Option String :=
  match env.comports.find? (fun p => p.device == device_address) with
  | none => none
  | some p => p.serial_number

/-- `VCPBackend.open`. -/
def openB (env : OSEnv) (device_address serial_number : Option String)
    (timeout : Int) (st : State) : Except Err Unit × State :=
  if pyTruthy device_address == pyTruthy serial_number then
    (.error (.valueError "Either device_address or serial_number must be provided for VCP backend"), st)
  else
    match device_address with
    | none =>
      match serial_number with
      | none => (.error .assertionError, st)
      | some sn =>
        let port? := get_port_by_serial_number env sn
        let st1 := { st with port := port? }
        match port? with
        | none => (.error (.valueError "No port found for serial number"), st1)
        | some p =>
          let st2 := { st1 with timeout := timeout, serial_number := some sn }
          (.ok (), { st2 with serialObj := some true, trace := st2.trace ++ [.nativeOpen p] })
    | some da =>
      let sn' := get_serial_number_by_port env da
      let st1 := { st with port := some da, timeout := timeout, serial_number := sn' }
      (.ok (), { st1 with serialObj := some true, trace := st1.trace ++ [.nativeOpen da] })

/-- `VCPBackend.close`: only touches the native handle when one is present
and open; clears the reference; a second call finds no handle. -/
def close (st : State) : Except Err Unit × State :=
  match st.serialObj with
  | some true =>
    (.ok (), { st with serialObj := none, trace := st.trace ++ [.nativeClose] })
  | _ => (.ok (), st)

end VCPB

namespace MCPB

/- `MCP2200Backend` (backends/mcp2200_backend.py). The HID library is out
of scope; `hid.Device(...)` is modelled as succeeding (a `nativeOpen`
event), `hid.enumerate` as the `hidSerials` list of the environment. -/

structure Env where
  comports : List PortInfo
  hidSerials : List (Option String)
  deriving DecidableEq

structure State where
  hidOpen : Bool
  serial_number : Option String
  timeout : Int
  trace : List Ev
  deriving DecidableEq

def initState : State :=
  { hidOpen := false, serial_number := none, timeout := 5000, trace := [] }

/-- The COM-port dictionary of `list_potential_devices`
(`com_ports[port.serial_number] = port.device` for truthy serials; a later
entry overwrites an earlier one, so look the key up from the back). -/
def comPortOf (env : Env) (sn : String) : Option String :=
  (env.comports.reverse.find? fun p =>
    match p.serial_number with
    | some s => s != "" && s == sn
    | none => false).map (·.device)

/-- `list_potential_devices`: one record per HID enumeration entry; the
address is only filled in when the HID serial also appears in the OS
serial-port enumeration. -/
def list_potential_devices (env : Env) : List (Option String × Option String) :=
  env.hidSerials.map fun sn? =>
    match sn? with
    | some sn => (if sn != "" then comPortOf env sn else none, some sn)
    | none => (none, none)

/-- `__find_serial_number`: serial of the first discovered device whose
address equals the requested one. -/
def find_serial_number (env : Env) (device_address : String) : Option String :=
  ((list_potential_devices env).find? fun r => r.1 == some device_address).bind (·.2)

/-- `MCP2200Backend.open`. -/
def openB (env : Env) (device_address serial_number : Option String)
    (timeout : Int) (st : State) : Except Err Unit × State :=
  if pyTruthy device_address == pyTruthy serial_number then
    (.error (.valueError "Either device_address or serial_number must be provided"), st)
  else
    let sn? := if pyTruthy serial_number then serial_number
               else match device_address with
                    | none => none
                    | some da => find_serial_number env da
    match sn?, device_address with
    | none, none => (.error .assertionError, st)
    | none, some _ => (.error (.valueError "Could not find serial number for device address"), st)
    | some sn, _ =>
      let st1 := { st with timeout := timeout }
      (.ok (),
       { st1 with hidOpen := true, serial_number := some sn,
                  trace := st1.trace ++ [.nativeOpen sn] })

/-- `MCP2200Backend.close`: returns immediately with no handle, otherwise
closes (errors are swallowed and logged) and always clears the handle. -/
def close (st : State) : Except Err Unit × State :=
  if st.hidOpen then
    (.ok (), { st with hidOpen := false, trace := st.trace ++ [.nativeClose] })
  else (.ok (), st)

end MCPB

namespace PYFB

/- `PyFtdiBackend` (backends/pyftdi_backend.py). `Ftdi.find_all` results
are the `found` list of the environment; native calls on an unopened
`Ftdi` object raise (modelled from the pyftdi library behaviour). -/

structure Env where
  comports : List PortInfo
  found : List (Option String)
  deriving DecidableEq

structure State where
  is_opened : Bool
  serial_number : Option String
  port : Option String
  timeout : Int
  trace : List Ev
  deriving DecidableEq

def initState : State :=
  { is_opened := false, serial_number := none, port := none, timeout := 5000, trace := [] }

/-- `PyFtdiBackend.open`. -/
def openB (env : Env) (device_address serial_number : Option String)
    (timeout : Int) (st : State) : Except Err Unit × State :=
  if pyTruthy device_address == pyTruthy serial_number then
    (.error (.valueError "Either device_address or serial_number must be provided for PyFtdi backend"), st)
  else
    let resolved :=
      match device_address with
      | some da =>
        match env.comports.find? (fun p => p.device == da) with
        | some p => p.serial_number
        | none => serial_number
      | none => serial_number
    let st1 : State := match device_address with
               | some da => { st with port := some da }
               | none => st
    if !pyTruthy resolved then
      (.error (.valueError "Could not find serial number for device"), st1)
    else
      let matched := env.found.find? (fun sn? => sn? == resolved)
      let st2 : State :=
        match matched with
        | some (some sn) =>
          { st1 with is_opened := true, trace := st1.trace ++ [.nativeOpen sn] }
        | _ => st1
      let st3 : State := { st2 with serial_number := resolved }
      if st3.is_opened then
        (.ok (),
         { st3 with timeout := timeout,
                    trace := st3.trace ++
                      ([.nativeCall "reset", .nativeCall "set_bitmode",
                        .nativeCall "set_baudrate", .nativeCall "set_line_property",
                        .write [0x00], .nativeCall "purge_buffers"] : List Ev) })
      else
        (.error (.runtimeError "Ftdi is not open"), st3)

/-- `PyFtdiBackend.close`: guarded by `is_opened`, native errors swallowed,
flag always cleared; never raises. -/
def close (st : State) : Except Err Unit × State :=
  if st.is_opened then
    (.ok (), { st with is_opened := false, trace := st.trace ++ [.nativeClose] })
  else (.ok (), st)

end PYFB

/-! ## Helper lemmas -/

theorem pyBitTest_eq_testBit (x i : Nat) : pyBitTest x i = x.testBit i := by
  unfold pyBitTest
  rw [Nat.one_shiftLeft, Nat.and_two_pow]
  cases h : x.testBit i <;> simp [Nat.pow_eq_zero]

theorem bitsVal_testBit (ts : List Bool) (k : Nat) :
    (bitsVal ts).testBit k = ts.getD k false := by
  induction ts generalizing k with
  | nil => simp [bitsVal]
  | cons b rest ih =>
    cases k with
    | zero =>
      cases b <;> simp [bitsVal, Nat.testBit_zero]
    | succ k =>
      have hdiv : ((cond b 1 0) + 2 * bitsVal rest) / 2 = bitsVal rest := by
        cases b <;> (simp only [cond]; omega)
      simp [bitsVal, Nat.testBit_succ, hdiv, ih]

theorem encodeByte8_eq_bitsVal (ts : List Bool) :
    encodeByte8 ts =
      bitsVal [ts.getD 0 false, ts.getD 1 false, ts.getD 2 false, ts.getD 3 false,
               ts.getD 4 false, ts.getD 5 false, ts.getD 6 false, ts.getD 7 false] := by
  simp only [encodeByte8, show List.range 8 = [0,1,2,3,4,5,6,7] from rfl, List.filter_cons,
    List.filter_nil, List.map_cons, List.map_nil, List.sum_cons, List.sum_nil, bitsVal]
  generalize ts.getD 0 false = b0
  generalize ts.getD 1 false = b1
  generalize ts.getD 2 false = b2
  generalize ts.getD 3 false = b3
  generalize ts.getD 4 false = b4
  generalize ts.getD 5 false = b5
  generalize ts.getD 6 false = b6
  generalize ts.getD 7 false = b7
  revert b0 b1 b2 b3 b4 b5 b6 b7
  decide

theorem encodeByte8_testBit (ts : List Bool) (k : Nat) (hk : k < 8) :
    (encodeByte8 ts).testBit k = ts.getD k false := by
  rw [encodeByte8_eq_bitsVal, bitsVal_testBit]
  interval_cases k <;> rfl

theorem bitmap4_eq_bitsVal (ts : List Bool) :
    MCP.bitmap4 ts =
      bitsVal [ts.getD 0 false, ts.getD 1 false, ts.getD 2 false, ts.getD 3 false] := by
  simp only [MCP.bitmap4, show List.range 4 = [0,1,2,3] from rfl, List.filter_cons,
    List.filter_nil, List.map_cons, List.map_nil, List.sum_cons, List.sum_nil, bitsVal]
  generalize ts.getD 0 false = b0
  generalize ts.getD 1 false = b1
  generalize ts.getD 2 false = b2
  generalize ts.getD 3 false = b3
  revert b0 b1 b2 b3
  decide

theorem bitmap4_testBit (ts : List Bool) (k : Nat) (hk : k < 4) :
    (MCP.bitmap4 ts).testBit k = ts.getD k false := by
  rw [bitmap4_eq_bitsVal, bitsVal_testBit]
  interval_cases k <;> rfl

theorem byte1Of_eq_bitsVal (ts : List Bool) :
    D16.byte1Of ts =
      bitsVal [ts.getD 7 false, ts.getD 6 false, ts.getD 5 false, ts.getD 4 false,
               ts.getD 3 false, ts.getD 2 false, ts.getD 1 false, ts.getD 0 false] := by
  simp only [D16.byte1Of, show List.range 8 = [0,1,2,3,4,5,6,7] from rfl, List.filter_cons,
    List.filter_nil, List.map_cons, List.map_nil, List.sum_cons, List.sum_nil, bitsVal]
  generalize ts.getD 7 false = b0
  generalize ts.getD 6 false = b1
  generalize ts.getD 5 false = b2
  generalize ts.getD 4 false = b3
  generalize ts.getD 3 false = b4
  generalize ts.getD 2 false = b5
  generalize ts.getD 1 false = b6
  generalize ts.getD 0 false = b7
  revert b0 b1 b2 b3 b4 b5 b6 b7
  decide

theorem byte1Of_testBit (ts : List Bool) (k : Nat) (hk : k < 8) :
    (D16.byte1Of ts).testBit k = ts.getD (7 - k) false := by
  rw [byte1Of_eq_bitsVal, bitsVal_testBit]
  interval_cases k <;> rfl

theorem byte2Of_eq_bitsVal (ts : List Bool) :
    D16.byte2Of ts =
      bitsVal [ts.getD 15 false, ts.getD 14 false, ts.getD 13 false, ts.getD 12 false,
               ts.getD 11 false, ts.getD 10 false, ts.getD 9 false, ts.getD 8 false] := by
  simp only [D16.byte2Of, show List.range 8 = [0,1,2,3,4,5,6,7] from rfl, List.filter_cons,
    List.filter_nil, List.map_cons, List.map_nil, List.sum_cons, List.sum_nil, bitsVal]
  generalize ts.getD 15 false = b0
  generalize ts.getD 14 false = b1
  generalize ts.getD 13 false = b2
  generalize ts.getD 12 false = b3
  generalize ts.getD 11 false = b4
  generalize ts.getD 10 false = b5
  generalize ts.getD 9 false = b6
  generalize ts.getD 8 false = b7
  revert b0 b1 b2 b3 b4 b5 b6 b7
  decide

theorem byte2Of_testBit (ts : List Bool) (k : Nat) (hk : k < 8) :
    (D16.byte2Of ts).testBit k = ts.getD (15 - k) false := by
  rw [byte2Of_eq_bitsVal, bitsVal_testBit]
  interval_cases k <;> rfl

theorem decode16_length (b1 b2 : Nat) : (D16.decode16 b1 b2).length = 16 := by
  simp [D16.decode16]

theorem decode16_getD (b1 b2 : Nat) (k : Nat) (hk : k < 16) :
    (D16.decode16 b1 b2).getD k false =
      if k < 8 then b1.testBit (7 - k) else b2.testBit (15 - k) := by
  interval_cases k <;>
    simp [D16.decode16, pyBitTest_eq_testBit,
      show List.range 8 = [0,1,2,3,4,5,6,7] from rfl]

/-- Decoding the two encoded state bytes recovers the 16-entry word. -/
theorem decode16_encode (w : List Bool) (h : w.length = 16) :
    D16.decode16 (D16.byte1Of w) (D16.byte2Of w) = w := by
  apply List.ext_getElem (by rw [decode16_length, h])
  intro n h1 h2
  have hn : n < 16 := by rw [decode16_length] at h1; exact h1
  have hd := decode16_getD (D16.byte1Of w) (D16.byte2Of w) n hn
  rw [List.getD_eq_getElem _ _ h1] at hd
  rw [hd]
  by_cases h8 : n < 8
  · rw [if_pos h8, byte1Of_testBit w _ (by omega), show 7 - (7 - n) = n from by omega,
      List.getD_eq_getElem _ _ h2]
  · rw [if_neg h8, byte2Of_testBit w _ (by omega), show 15 - (15 - n) = n from by omega,
      List.getD_eq_getElem _ _ h2]

theorem getD_set (xs : List α) (n k : Nat) (v d : α) :
    (xs.set n v).getD k d = if n = k ∧ n < xs.length then v else xs.getD k d := by
  rw [List.getD_eq_getElem?_getD, List.getD_eq_getElem?_getD, List.getElem?_set]
  by_cases h1 : n = k
  · subst h1
    by_cases h2 : n < xs.length
    · simp [h2]
    · simp [h2, List.getElem?_eq_none (Nat.le_of_not_lt h2)]
  · simp [h1]

theorem pySetItem_ok (xs : List α) (a : Int) (v : α)
    (h1 : 1 ≤ a) (h2 : a ≤ (xs.length : Int)) :
    pySetItem xs (a - 1) v = .ok (xs.set (a - 1).toNat v) := by
  have hc : 0 ≤ a - 1 ∧ (a - 1).toNat < xs.length := ⟨by omega, by omega⟩
  unfold pySetItem
  rw [if_pos hc]

/-- Characterization of the shared set-iteration merge loop: on an in-range
address list it succeeds, preserves the length, and changes exactly the
addressed positions to the requested value. -/
theorem mergeStates_ok (v : Bool) (addrs : List Int) : ∀ (orig : List Bool),
    (∀ a ∈ addrs, 1 ≤ a ∧ a ≤ (orig.length : Int)) →
    ∃ res, mergeStates orig addrs v = .ok res ∧ res.length = orig.length ∧
      ∀ k : Nat, res.getD k false =
        if ((k : Int) + 1) ∈ addrs then v else orig.getD k false := by
  induction addrs with
  | nil =>
    intro orig _
    exact ⟨orig, rfl, rfl, fun k => by simp⟩
  | cons a rest ih =>
    intro orig h
    have ha := h a (List.mem_cons_self a rest)
    obtain ⟨res, hm, hlen, hchar⟩ := ih (orig.set (a - 1).toNat v)
      (fun a' ha' => by
        have := h a' (List.mem_cons_of_mem a ha')
        simpa [List.length_set] using this)
    refine ⟨res, ?_, by rw [hlen, List.length_set], ?_⟩
    · unfold mergeStates at hm ⊢
      rw [List.foldl_cons]
      change List.foldl _ (pySetItem orig (a - 1) v) rest = Except.ok res
      rw [pySetItem_ok orig a v ha.1 ha.2]
      exact hm
    · intro k
      rw [hchar k]
      by_cases hr : ((k : Int) + 1) ∈ rest
      · rw [if_pos hr, if_pos (List.mem_cons_of_mem a hr)]
      · rw [if_neg hr, getD_set]
        by_cases hac : ((k : Int) + 1) = a
        · have hmem : ((k : Int) + 1) ∈ a :: rest := by
            rw [hac]
            exact List.mem_cons_self a rest
          rw [if_pos ⟨by omega, by omega⟩, if_pos hmem]
        · have hmem : ((k : Int) + 1) ∉ a :: rest := by
            rw [List.mem_cons]
            push_neg
            exact ⟨hac, hr⟩
          rw [if_neg (fun hcontra => hac (by omega)), if_neg hmem]

theorem integrityViolated_false (n : Nat) (addrs : List Int)
    (h : ∀ a ∈ addrs, 1 ≤ a ∧ a ≤ (n : Int)) : integrityViolated n addrs = false := by
  simp only [integrityViolated, List.any_eq_false]
  intro a ha
  have := h a ha
  simp only [Bool.or_eq_true, decide_eq_true_eq, not_or]
  omega

theorem integrityViolated_dedup_false (n : Nat) (addrs : List Int)
    (h : ∀ a ∈ addrs, 1 ≤ a ∧ a ≤ (n : Int)) :
    integrityViolated n addrs.dedup = false :=
  integrityViolated_false n addrs.dedup (fun a ha => h a (List.mem_dedup.mp ha))

/-- Running the 16-channel query against the modelled device: the stale
input is drained, `ask//` is sent, the 2 encoded bytes are read back and
decode to the device's relay word. -/
theorem dev16_get_all_states (s : Dev16.State) (h : s.word.length = 16) :
    D16.get_all_states Dev16.ops (some s) =
      (.ok s.word,
       some { word := s.word, outbox := [],
              trace := s.trace ++ [Ev.read none] ++
                [Ev.write [0x61, 0x73, 0x6B, 0x2F, 0x2F]] ++ [Ev.read (some 2)] }) := by
  have base : D16.get_all_states Dev16.ops (some s) =
      (.ok (D16.decode16 (D16.byte1Of s.word) (D16.byte2Of s.word)),
       some { word := s.word, outbox := [],
              trace := s.trace ++ [Ev.read none] ++
                [Ev.write [0x61, 0x73, 0x6B, 0x2F, 0x2F]] ++ [Ev.read (some 2)] }) := rfl
  rw [base, decode16_encode s.word h]

/-- The modelled device applies a single-address command to exactly that
channel. -/
theorem dev16_parse_single (w : List Bool) (a : Int) (logic : Bool)
    (h1 : 1 ≤ a) (h2 : a ≤ 16) :
    Dev16.parse w (D16.addrPattern a ++
        (if logic then D16.POSITIVE_LOGIC_PATTERN else D16.NEGATIVE_LOGIC_PATTERN) ++
        D16.EOC_PATTERN) =
      (w.set (a - 1).toNat logic, List.replicate 5 0) := by
  cases logic <;> interval_cases a <;> rfl

/-- The modelled device loads a multi-address command as the decoded word. -/
theorem dev16_parse_multi (w : List Bool) (b1 b2 : Nat) :
    Dev16.parse w (D16.MULTIPLE_COMMAND ++ [b1, b2] ++ D16.EOC_PATTERN) =
      (D16.decode16 b1 b2, List.replicate 5 0) := rfl

theorem set_single_frame (w : List Bool) (addrs : List Int) (a : Int) (logic : Bool)
    (hd : addrs.dedup = [a]) (h1 : 1 ≤ a) (h2 : a ≤ (w.length : Int)) :
    ∀ k : Nat, (w.set (a - 1).toNat logic).getD k false =
      if ((k : Int) + 1) ∈ addrs then logic else w.getD k false := by
  intro k
  have hmem : (((k : Int) + 1) ∈ addrs) ↔ ((k : Int) + 1 = a) := by
    rw [← List.mem_dedup, hd, List.mem_singleton]
  rw [getD_set]
  by_cases hk : ((k : Int) + 1) = a
  · rw [if_pos ⟨by omega, by omega⟩, if_pos (hmem.mpr hk)]
  · rw [if_neg (fun hc => hk (by omega)), if_neg (fun hc => hk (hmem.mp hc))]

theorem getD_map_range (f : Nat → α) (n k : Nat) (d : α) (hk : k < n) :
    ((List.range n).map f).getD k d = f k := by
  rw [List.getD_eq_getElem _ _ (by simpa using hk), List.getElem_map, List.getElem_range]

/-- Frame property of the 16-channel `set_state` against the modelled
device: only the addressed channels change, whichever branch
(single-address command or read-modify-write) is taken. -/
theorem d16_set_state_frame (d : Dev16.State) (logic : Bool) (addrs : List Int)
    (hw : d.word.length = 16) (h : ∀ a ∈ addrs, 1 ≤ a ∧ a ≤ (16 : Int)) :
    ∃ d' : Dev16.State, D16.set_state Dev16.ops logic addrs (some d) = (.ok (), some d') ∧
      d'.word.length = 16 ∧
      ∀ k : Nat, d'.word.getD k false =
        if ((k : Int) + 1) ∈ addrs then logic else d.word.getD k false := by
  have hA : ∀ a ∈ addrs.dedup, 1 ≤ a ∧ a ≤ (16 : Int) :=
    fun a ha => h a (List.mem_dedup.mp ha)
  have hI := integrityViolated_dedup_false 16 addrs h
  simp only [D16.set_state, D16.max_channel, hI, Bool.false_eq_true, if_false]
  by_cases hlen1 : addrs.dedup.length = 1
  · obtain ⟨a, ha⟩ := List.length_eq_one.mp hlen1
    have haR := hA a (by rw [ha]; exact List.mem_singleton.mpr rfl)
    rw [if_pos hlen1, ha]
    simp only [List.headD_cons, D16.set_single_state, D16.max_channel,
      integrityViolated_false 16 [a]
        (fun x hx => by rw [List.mem_singleton] at hx; exact hx ▸ haR),
      Bool.false_eq_true, if_false]
    simp only [Dev16.ops, dev16_parse_single d.word a logic haR.1 haR.2]
    refine ⟨_, rfl, by simpa using hw, ?_⟩
    exact set_single_frame d.word addrs a logic ha haR.1 (by omega)
  · rw [if_neg hlen1, dev16_get_all_states d hw]
    obtain ⟨target, hm, hlen, hchar⟩ := mergeStates_ok logic addrs.dedup d.word
      (fun a ha => by have := hA a ha; omega)
    simp only [hm]
    simp only [D16.set_multiple_states, hlen, hw, ne_eq, not_true_eq_false, if_false]
    simp only [Dev16.ops, dev16_parse_multi, decode16_encode target (hlen.trans hw)]
    refine ⟨_, rfl, hlen.trans hw, ?_⟩
    intro k
    rw [hchar k]
    by_cases hk : ((k : Int) + 1) ∈ addrs.dedup
    · rw [if_pos hk, if_pos (List.mem_dedup.mp hk)]
    · rw [if_neg hk, if_neg (fun hc => hk (List.mem_dedup.mpr hc))]

/-- Frame property of the 8-channel `set_state` against the bit-bang
backend: read-modify-write touching only the addressed GPIO bits. -/
theorem d8_set_state_frame (s : BB) (logic : Bool) (addrs : List Int)
    (h : ∀ a ∈ addrs, 1 ≤ a ∧ a ≤ (8 : Int)) :
    ∃ s' : BB, D8.set_state bbOps logic addrs (some s) = (.ok (), some s') ∧
      ∀ k : Nat, k < 8 →
        s'.reg.testBit k = if ((k : Int) + 1) ∈ addrs then logic else s.reg.testBit k := by
  have hI := integrityViolated_dedup_false 8 addrs h
  simp only [D8.set_state, D8.max_channel, hI, Bool.false_eq_true, if_false]
  obtain ⟨target, hm, hlen, hchar⟩ :=
    mergeStates_ok logic addrs.dedup ((List.range 8).map (fun i => pyBitTest s.reg i))
      (fun a ha => by
        have := h a (List.mem_dedup.mp ha)
        simpa using this)
  simp only [D8.get_all_states, bbOps]
  simp only [hm]
  refine ⟨_, rfl, ?_⟩
  intro k hk
  show (encodeByte8 target).testBit k = _
  rw [encodeByte8_testBit target k hk, hchar k, getD_map_range _ _ _ _ hk,
    pyBitTest_eq_testBit]
  by_cases hmem : ((k : Int) + 1) ∈ addrs.dedup
  · rw [if_pos hmem, if_pos (List.mem_dedup.mp hmem)]
  · rw [if_neg hmem, if_neg (fun hc => hmem (List.mem_dedup.mpr hc))]

/-- Frame property of the FT422 `set_state`: identical read-modify-write
over the full 8-bit register, with addresses bounded by 4. -/
theorem ft422_set_state_frame (s : BB) (logic : Bool) (addrs : List Int)
    (h : ∀ a ∈ addrs, 1 ≤ a ∧ a ≤ (4 : Int)) :
    ∃ s' : BB, FT422.set_state bbOps logic addrs s = (.ok (), s') ∧
      ∀ k : Nat, k < 8 →
        s'.reg.testBit k = if ((k : Int) + 1) ∈ addrs then logic else s.reg.testBit k := by
  have hI := integrityViolated_dedup_false 4 addrs h
  simp only [FT422.set_state, FT422.max_channel, hI, Bool.false_eq_true, if_false]
  obtain ⟨target, hm, hlen, hchar⟩ :=
    mergeStates_ok logic addrs.dedup ((List.range 8).map (fun i => pyBitTest s.reg i))
      (fun a ha => by
        have := h a (List.mem_dedup.mp ha)
        simp only [List.length_map, List.length_range]
        omega)
  simp only [FT422.get_all_states, bbOps]
  simp only [hm]
  refine ⟨_, rfl, ?_⟩
  intro k hk
  show (encodeByte8 target).testBit k = _
  rw [encodeByte8_testBit target k hk, hchar k, getD_map_range _ _ _ _ hk,
    pyBitTest_eq_testBit]
  by_cases hmem : ((k : Int) + 1) ∈ addrs.dedup
  · rw [if_pos hmem, if_pos (List.mem_dedup.mp hmem)]
  · rw [if_neg hmem, if_neg (fun hc => hmem (List.mem_dedup.mpr hc))]

theorem mcp_get_all_states (s : HIDDev) :
    MCP.get_all_states hidOps (some s) =
      (.ok ((List.range 4).map (fun i => pyBitTest s.port i)),
       some { port := s.port,
              trace := s.trace ++ [Ev.write MCP.read_all_buffer] ++ [Ev.read (some 16)] }) := rfl

theorem ccb_getD0 (ts : List Bool) :
    (MCP.construct_control_bytes ts).getD 0 0 = MCP.SET_CLEAR_OUT_OPCODE := by
  simp [MCP.construct_control_bytes, getD_set]

theorem ccb_getD11 (ts : List Bool) :
    (MCP.construct_control_bytes ts).getD 11 0 = MCP.bitmap4 ts := by
  simp [MCP.construct_control_bytes, getD_set]

/-- Frame property of the MCP2200 `set_state` against the HID device:
read-modify-write touching only the addressed output bits. -/
theorem mcp_set_state_frame (s : HIDDev) (logic : Bool) (addrs : List Int)
    (h : ∀ a ∈ addrs, 1 ≤ a ∧ a ≤ (4 : Int)) :
    ∃ s' : HIDDev, MCP.set_state hidOps logic addrs (some s) = (.ok (), some s') ∧
      ∀ k : Nat, k < 4 →
        s'.port.testBit k = if ((k : Int) + 1) ∈ addrs then logic else s.port.testBit k := by
  have hI := integrityViolated_dedup_false 4 addrs h
  simp only [MCP.set_state, MCP.max_channel, hI, Bool.false_eq_true, if_false]
  obtain ⟨target, hm, hlen, hchar⟩ :=
    mergeStates_ok logic addrs.dedup ((List.range 4).map (fun i => pyBitTest s.port i))
      (fun a ha => by
        have := h a (List.mem_dedup.mp ha)
        simpa using this)
  rw [mcp_get_all_states s]
  simp only [hm]
  refine ⟨_, rfl, ?_⟩
  intro k hk
  show (if (MCP.construct_control_bytes target).getD 0 0 = MCP.SET_CLEAR_OUT_OPCODE
        then (MCP.construct_control_bytes target).getD 11 0 else s.port).testBit k = _
  rw [ccb_getD0, ccb_getD11, if_pos rfl, bitmap4_testBit target k hk, hchar k,
    getD_map_range _ _ _ _ hk, pyBitTest_eq_testBit]
  by_cases hmem : ((k : Int) + 1) ∈ addrs.dedup
  · rw [if_pos hmem, if_pos (List.mem_dedup.mp hmem)]
  · rw [if_neg hmem, if_neg (fun hc => hmem (List.mem_dedup.mpr hc))]

/-! ## Claims -/

/-- C1: the claim says every out-of-range address makes `get_state` fail
with `StateOverflow(max_channel)` before any I/O.  On the two 4-channel
boards `get_state` performs no range check: the FT422 board reads the GPIO
register (I/O) and returns the out-of-range bit 4 for address 5, raises a
negative-shift `ValueError` (after the I/O) for address 0; the MCP2200
board issues its write+read exchange and then returns channel 4's state
for address 0 (Python's negative indexing) or raises `IndexError` for
address 5 — never `StateOverflow(4)`. -/
theorem C1_get_state_skips_range_check :
    FT422.get_state bbOps 5 ⟨16, []⟩ = (.ok true, ⟨16, [Ev.getBitMode]⟩) ∧
    FT422.get_state bbOps 0 ⟨16, []⟩ =
      (.error (.valueError "negative shift count"), ⟨16, [Ev.getBitMode]⟩) ∧
    MCP.get_state hidOps 0 (some ⟨8, []⟩) =
      (.ok true, some ⟨8, [Ev.write MCP.read_all_buffer, Ev.read (some 16)]⟩) ∧
    (MCP.get_state hidOps 5 (some ⟨8, []⟩)).1 = .error .indexError :=
  ⟨rfl, rfl, rfl, rfl⟩

/-- C2 counterexample: with an out-of-range address in the list,
`set_clear_state(false, [17])` on the 16-channel board raises
`StateOverflow(16)` without touching the backend, while
`set_all_states_off()` succeeds and performs I/O — the two are not
observationally identical for arbitrary address lists. -/
theorem C2_out_of_range_differs :
    D16.set_clear_state Dev16.ops false [17] (some ⟨List.replicate 16 false, [], []⟩) =
      (.error (.stateOverflow 16), some ⟨List.replicate 16 false, [], []⟩) ∧
    D16.set_all_states_off Dev16.ops (some ⟨List.replicate 16 false, [], []⟩) =
      (.ok (), some ⟨List.replicate 16 false, [],
        [Ev.write [0x6F, 0x66, 0x66, 0x2F, 0x2F], Ev.read (some 5)]⟩) :=
  ⟨rfl, rfl⟩

/-- C2 (amended): for every board family and every backend,
`set_clear_state(false, addrs)` is the same function of the backend state
as `set_all_states_off()` — identical I/O, result and errors — provided
every address in the list lies in `[1, max_channel]`. -/
theorem C2_set_clear_false_is_all_off :
    (∀ (σ : Type) (B : BEOps σ) (slot : Option σ) (addrs : List Int),
      (∀ a ∈ addrs, 1 ≤ a ∧ a ≤ (16 : Int)) →
      D16.set_clear_state B false addrs slot = D16.set_all_states_off B slot) ∧
    (∀ (σ : Type) (B : BitOps σ) (slot : Option σ) (addrs : List Int),
      (∀ a ∈ addrs, 1 ≤ a ∧ a ≤ (8 : Int)) →
      D8.set_clear_state B false addrs slot = D8.set_all_states_off B slot) ∧
    (∀ (σ : Type) (B : BEOps σ) (slot : Option σ) (addrs : List Int),
      (∀ a ∈ addrs, 1 ≤ a ∧ a ≤ (4 : Int)) →
      MCP.set_clear_state B false addrs slot = MCP.set_all_states_off B slot) ∧
    (∀ (σ : Type) (B : BitOps σ) (s : σ) (addrs : List Int),
      (∀ a ∈ addrs, 1 ≤ a ∧ a ≤ (4 : Int)) →
      FT422.set_clear_state B false addrs s = FT422.set_all_states_off B s) := by
  refine ⟨fun σ B slot addrs h => ?_, fun σ B slot addrs h => ?_,
    fun σ B slot addrs h => ?_, fun σ B s addrs h => ?_⟩
  · cases slot with
    | none => rfl
    | some s =>
      simp [D16.set_clear_state, D16.max_channel, integrityViolated_dedup_false 16 addrs h]
  · cases slot with
    | none => rfl
    | some s =>
      simp [D8.set_clear_state, D8.max_channel, integrityViolated_dedup_false 8 addrs h]
  · cases slot with
    | none => rfl
    | some s =>
      simp [MCP.set_clear_state, MCP.max_channel, integrityViolated_dedup_false 4 addrs h]
  · simp [FT422.set_clear_state, FT422.max_channel, integrityViolated_dedup_false 4 addrs h]

theorem C2_set_clear_false_witness :
    D16.set_clear_state scriptOps false [1, 16] (some ⟨[], []⟩) =
      D16.set_all_states_off scriptOps (some ⟨[], []⟩) :=
  C2_set_clear_false_is_all_off.1 Script scriptOps (some ⟨[], []⟩) [1, 16] (by decide)

/-- C3 counterexample: closing the proprietary-chip backend on a handle
that was never opened raises `FTD2XXDeviceNotOpenException` instead of
being a no-op. -/
theorem C3_ftd2xx_close_raises :
    FTDB.close FTDB.initState = (.error .ftdDeviceNotOpen, FTDB.initState) := rfl

/-- C3 (amended): the VCP, MCP2200 and PyFtdi backend `close`s never raise
and a second call is a no-op, and the 16-, 8- and 4-channel-HID board
`close`s are idempotent (closing an already-closed board is a no-op); but
the FTD2XX backend raises `FTD2XXDeviceNotOpenException` when its handle
is unopened or already closed, and the FT422 board's unguarded `close`
inherits that behaviour. -/
theorem C3_close_behaviour :
    (∀ st : VCPB.State, (VCPB.close st).1 = .ok () ∧
      VCPB.close (VCPB.close st).2 = (.ok (), (VCPB.close st).2)) ∧
    (∀ st : MCPB.State, (MCPB.close st).1 = .ok () ∧
      MCPB.close (MCPB.close st).2 = (.ok (), (MCPB.close st).2)) ∧
    (∀ st : PYFB.State, (PYFB.close st).1 = .ok () ∧
      PYFB.close (PYFB.close st).2 = (.ok (), (PYFB.close st).2)) ∧
    (∀ st : FTDB.State, st.handleOpen = true →
      (FTDB.close st).1 = .ok () ∧
      (FTDB.close (FTDB.close st).2).1 = .error .ftdDeviceNotOpen) ∧
    (∀ (σ : Type) (cl : σ → Except Err Unit × σ),
      D16.close cl none = (.ok (), none) ∧ D8.close cl none = (.ok (), none) ∧
      MCP.close cl none = (.ok (), none)) ∧
    (∀ (σ : Type) (cl : σ → Except Err Unit × σ) (slot : Option σ),
      (D16.close cl slot).1 = .ok () → D16.close cl (D16.close cl slot).2 = (.ok (), none)) ∧
    (∀ (σ : Type) (cl : σ → Except Err Unit × σ) (slot : Option σ),
      (D8.close cl slot).1 = .ok () → D8.close cl (D8.close cl slot).2 = (.ok (), none)) ∧
    (∀ (σ : Type) (cl : σ → Except Err Unit × σ) (slot : Option σ),
      (MCP.close cl slot).1 = .ok () → MCP.close cl (MCP.close cl slot).2 = (.ok (), none)) ∧
    (∀ st : FTDB.State, st.handleOpen = false →
      FT422.close FTDB.close st = (.error .ftdDeviceNotOpen, st)) := by
  refine ⟨fun st => ?_, fun st => ?_, fun st => ?_, fun st h => ?_, fun σ cl => ⟨rfl, rfl, rfl⟩,
    fun σ cl slot h => ?_, fun σ cl slot h => ?_, fun σ cl slot h => ?_, fun st h => ?_⟩
  · rcases st with ⟨so, p, sn, t, tr⟩
    rcases so with _ | b
    · exact ⟨rfl, rfl⟩
    · cases b
      · exact ⟨rfl, rfl⟩
      · exact ⟨rfl, rfl⟩
  · rcases st with ⟨ho, sn, t, tr⟩
    cases ho
    · exact ⟨rfl, rfl⟩
    · exact ⟨rfl, rfl⟩
  · rcases st with ⟨io, sn, p, t, tr⟩
    cases io
    · exact ⟨rfl, rfl⟩
    · exact ⟨rfl, rfl⟩
  · rcases st with ⟨ho, sn, p, t, tr⟩
    subst h
    exact ⟨rfl, rfl⟩
  · cases slot with
    | none => rfl
    | some s =>
      simp only [D16.close] at h ⊢
      rcases hcl : cl s with ⟨r, s1⟩
      rw [hcl] at h
      cases r with
      | ok u => rfl
      | error e => exact Except.noConfusion h
  · cases slot with
    | none => rfl
    | some s =>
      simp only [D8.close] at h ⊢
      rcases hcl : cl s with ⟨r, s1⟩
      rw [hcl] at h
      cases r with
      | ok u => rfl
      | error e => exact Except.noConfusion h
  · cases slot with
    | none => rfl
    | some s =>
      simp only [MCP.close] at h ⊢
      rcases hcl : cl s with ⟨r, s1⟩
      rw [hcl] at h
      cases r with
      | ok u => rfl
      | error e => exact Except.noConfusion h
  · simp [FT422.close, FTDB.close, h]

theorem C3_close_behaviour_witness :
    (FTDB.close ⟨true, none, none, 5000, []⟩).1 = .ok () ∧
    (FTDB.close (FTDB.close ⟨true, none, none, 5000, []⟩).2).1 = .error .ftdDeviceNotOpen :=
  C3_close_behaviour.2.2.2.1 ⟨true, none, none, 5000, []⟩ rfl

/-- C4 counterexample: when the backend opens but the post-open
`set_bit_mode` fails, the 8-channel constructor propagates the error
without issuing any close — the backend is left open. -/
theorem C4_no_close_before_error :
    D8.init ctorFailBE ⟨false, []⟩ =
      (.error (.runtimeError "FT_SetBitMode failed"),
       some ⟨true, [Ev.nativeOpen "SN", Ev.setBitMode 255 4]⟩) ∧
    Ev.nativeClose ∉ [Ev.nativeOpen "SN", Ev.setBitMode 255 4] :=
  ⟨rfl, by decide⟩

/-- C5: the 16-channel query drains stale input, sends `ask//`, reads
exactly 2 bytes, fails with the length-mismatch `RuntimeError` when fewer
than 2 bytes arrive, decodes most-significant-bit-first, and in particular
`(0b10000000, 0b00000001)` decodes to channel 1 on, channels 2..15 off,
channel 16 on. -/
theorem C5_get_all_states_protocol (stale reply : List Nat) (rest : List (List Nat)) :
    (D16.get_all_states scriptOps (some ⟨stale :: reply :: rest, []⟩)).2 =
      some ⟨rest, [Ev.read none, Ev.write [0x61, 0x73, 0x6B, 0x2F, 0x2F],
                   Ev.read (some 2)]⟩ ∧
    (2 ≤ reply.length →
      (D16.get_all_states scriptOps (some ⟨stale :: reply :: rest, []⟩)).1 =
        .ok (D16.decode16 (reply.getD 0 0) (reply.getD 1 0))) ∧
    (reply.length < 2 →
      (D16.get_all_states scriptOps (some ⟨stale :: reply :: rest, []⟩)).1 =
        .error (.runtimeError "Invalid response length")) ∧
    D16.decode16 0b10000000 0b00000001 =
      [true, false, false, false, false, false, false, false,
       false, false, false, false, false, false, false, true] := by
  rcases reply with _ | ⟨a, _ | ⟨b, t⟩⟩
  · exact ⟨rfl, fun h => absurd h (by decide), fun _ => rfl, by decide⟩
  · exact ⟨rfl, fun h => absurd h (by simp), fun _ => rfl, by decide⟩
  · refine ⟨rfl, fun _ => rfl, fun h => ?_, by decide⟩
    rw [List.length_cons, List.length_cons] at h
    omega

theorem C5_get_all_states_protocol_witness :
    (D16.get_all_states scriptOps (some ⟨[[7], [0b10000000, 0b00000001]], []⟩)).1 =
      .ok [true, false, false, false, false, false, false, false,
           false, false, false, false, false, false, false, true] := by
  have h := C5_get_all_states_protocol [7] [0b10000000, 0b00000001] []
  exact (h.2.1 (by decide)).trans (congrArg Except.ok h.2.2.2)

/-- C6: every MCP2200 set command is the 16-byte buffer built by
`__construct_control_bytes`: byte 0 is the `0x08` opcode, byte 11 the
4-bit channel bitmap (bit i = channel i+1), byte 12 its `^ 0xFF`
complement; channels `{1,3}` give byte 11 = `0b00000101` and byte 12 =
`0b11111010`, and `set_clear_state(true, [1,3])` writes exactly that
buffer. -/
theorem C6_control_bytes_encoding :
    (∀ b0 b1 b2 b3 : Bool,
      (MCP.construct_control_bytes [b0, b1, b2, b3]).length = 16 ∧
      (MCP.construct_control_bytes [b0, b1, b2, b3]).getD 0 0 = MCP.SET_CLEAR_OUT_OPCODE ∧
      (MCP.construct_control_bytes [b0, b1, b2, b3]).getD 11 0 = MCP.bitmap4 [b0, b1, b2, b3] ∧
      (MCP.construct_control_bytes [b0, b1, b2, b3]).getD 12 0 =
        MCP.bitmap4 [b0, b1, b2, b3] ^^^ 0xFF ∧
      (∀ k : Fin 4, (MCP.bitmap4 [b0, b1, b2, b3]).testBit k.val =
        [b0, b1, b2, b3].getD k.val false)) ∧
    MCP.bitmap4 [true, false, true, false] = 0b00000101 ∧
    MCP.bitmap4 [true, false, true, false] ^^^ 0xFF = 0b11111010 ∧
    (∀ s : HIDDev, MCP.set_clear_state hidOps true [1, 3] (some s) =
      (.ok (),
       some { port := 5,
              trace := s.trace ++
                [Ev.write (MCP.construct_control_bytes [true, false, true, false])] })) := by
  refine ⟨by decide, by decide, by decide, fun s => rfl⟩

/-- C7 counterexample: `_open_by_port` compares the stripped OS serial
number against the chip serial number case-sensitively — flipping the case
of the OS-reported serial makes resolution fail even though the
case-normalizing helper still matches the same environment. -/
theorem C7_open_by_port_case_sensitive :
    (FTDB.open_by_port ⟨[⟨"COM3", some "abc1a"⟩], [⟨"abc1"⟩]⟩ "COM3" FTDB.initState).1 =
      .ok () ∧
    (FTDB.open_by_port ⟨[⟨"COM3", some "ABC1A"⟩], [⟨"abc1"⟩]⟩ "COM3" FTDB.initState).1 =
      .error (.valueError "No FTDI device found with serial number for port") ∧
    FTDB.get_port_by_serial_number ⟨[⟨"COM3", some "ABC1A"⟩], [⟨"abc1"⟩]⟩ "abc1" =
      some "COM3" :=
  ⟨rfl, rfl, rfl⟩

/-- C7 (amended): the two resolution helpers (serial→port and
port→serial) compare case-normalized and strip exactly one trailing
character from the OS-reported serial; the extra `_open_by_port` path also
strips one trailing character but compares the result against the chip
serial case-sensitively. -/
theorem C7_serial_matching :
    (∀ (env : OSEnv) (sn sn' : String), pyLower sn = pyLower sn' →
      FTDB.get_port_by_serial_number env sn = FTDB.get_port_by_serial_number env sn') ∧
    (∀ (env : OSEnv) (sn sn' : String), pyLower sn = pyLower sn' →
      FTDB.get_actual_serial_number env sn = FTDB.get_actual_serial_number env sn') ∧
    (∀ (env : OSEnv) (p p' : String), pyLower p = pyLower p' →
      FTDB.get_serial_number_by_port env p = FTDB.get_serial_number_by_port env p') ∧
    (∀ (env : OSEnv) (sn d : String), FTDB.get_port_by_serial_number env sn = some d →
      ∃ p ∈ env.comports, p.device = d ∧
        ∃ s, p.serial_number = some s ∧ pyDropLast (pyLower s) = pyLower sn) ∧
    (∀ (env : OSEnv) (port : String) (st : FTDB.State),
      (FTDB.open_by_port env port st).1 = .ok () →
      ∃ p ∈ env.comports, p.device = port ∧
        ∃ s, p.serial_number = some s ∧
          ∃ fd ∈ env.ftdiDevices, fd.serial_number = pyDropLast s) := by
  refine ⟨fun env sn sn' h => ?_, fun env sn sn' h => ?_, fun env p p' h => ?_,
    fun env sn d hfind => ?_, fun env port st h => ?_⟩
  · simp only [FTDB.get_port_by_serial_number, h]
  · simp only [FTDB.get_actual_serial_number, h]
  · simp only [FTDB.get_serial_number_by_port, h]
  · unfold FTDB.get_port_by_serial_number at hfind
    obtain ⟨p, hp, hfp⟩ := List.exists_of_findSome?_eq_some hfind
    refine ⟨p, hp, ?_⟩
    rcases hsn : p.serial_number with _ | s
    · rw [hsn] at hfp
      exact absurd hfp (by simp)
    · rw [hsn] at hfp
      dsimp only at hfp
      by_cases hc : (pyDropLast (pyLower s) == pyLower sn) = true
      · rw [if_pos hc] at hfp
        exact ⟨Option.some.inj hfp, s, rfl, eq_of_beq hc⟩
      · rw [if_neg hc] at hfp
        exact absurd hfp (by simp)
  · unfold FTDB.open_by_port at h
    rcases hfind : env.comports.find? (fun d => d.device == port) with _ | p
    · rw [hfind] at h
      simp at h
    · rw [hfind] at h
      dsimp only at h
      rcases hsn : p.serial_number with _ | s
      · rw [hsn] at h
        simp at h
      · rw [hsn] at h
        dsimp only at h
        rcases hm : env.ftdiDevices.findSome?
            (fun fd => if fd.serial_number == pyDropLast s
                       then some fd.serial_number else none) with _ | m
        · rw [hm] at h
          simp at h
        · obtain ⟨fd, hfd, hffd⟩ := List.exists_of_findSome?_eq_some hm
          have hdev := List.find?_some hfind
          refine ⟨p, List.mem_of_find?_eq_some hfind, eq_of_beq hdev, s, hsn, fd, hfd, ?_⟩
          by_cases hc : (fd.serial_number == pyDropLast s) = true
          · exact eq_of_beq hc
          · rw [if_neg hc] at hffd
            exact absurd hffd (by simp)

theorem C7_serial_matching_witness :
    FTDB.get_port_by_serial_number ⟨[⟨"COM3", some "abc1a"⟩], [⟨"abc1"⟩]⟩ "ABC1" =
      FTDB.get_port_by_serial_number ⟨[⟨"COM3", some "abc1a"⟩], [⟨"abc1"⟩]⟩ "abc1" :=
  C7_serial_matching.1 ⟨[⟨"COM3", some "abc1a"⟩], [⟨"abc1"⟩]⟩ "ABC1" "abc1" (by decide)

/-- C8: with both identifiers supplied (non-empty) or neither supplied,
every backend's `open` fails immediately with the invalid-argument
`ValueError`, leaving the state — and hence the unopened handle and the
empty I/O trace — untouched. -/
theorem C8_open_argument_validation : ∀ (da sn : Option String) (t : Int),
    pyTruthy da = pyTruthy sn →
    (∀ (env : OSEnv) (st : FTDB.State), FTDB.openB env da sn t st =
      (.error (.valueError
        "Either device_address or serial_number must be provided for FTD2XX backend"), st)) ∧
    (∀ (env : OSEnv) (st : VCPB.State), VCPB.openB env da sn t st =
      (.error (.valueError
        "Either device_address or serial_number must be provided for VCP backend"), st)) ∧
    (∀ (env : MCPB.Env) (st : MCPB.State), MCPB.openB env da sn t st =
      (.error (.valueError
        "Either device_address or serial_number must be provided"), st)) ∧
    (∀ (env : PYFB.Env) (st : PYFB.State), PYFB.openB env da sn t st =
      (.error (.valueError
        "Either device_address or serial_number must be provided for PyFtdi backend"), st)) ∧
    FTDB.initState.handleOpen = false ∧ VCPB.initState.serialObj = none ∧
    MCPB.initState.hidOpen = false ∧ PYFB.initState.is_opened = false := by
  intro da sn t h
  refine ⟨fun env st => ?_, fun env st => ?_, fun env st => ?_, fun env st => ?_,
    rfl, rfl, rfl, rfl⟩
  · simp [FTDB.openB, h]
  · simp [VCPB.openB, h]
  · simp [MCPB.openB, h]
  · simp [PYFB.openB, h]

theorem C8_open_argument_validation_witness :
    FTDB.openB ⟨[], []⟩ (some "COM1") (some "SN") 5000 FTDB.initState =
      (.error (.valueError
        "Either device_address or serial_number must be provided for FTD2XX backend"),
       FTDB.initState) ∧
    VCPB.openB ⟨[], []⟩ none none 5000 VCPB.initState =
      (.error (.valueError
        "Either device_address or serial_number must be provided for VCP backend"),
       VCPB.initState) :=
  ⟨(C8_open_argument_validation (some "COM1") (some "SN") 5000 (by decide)).1 ⟨[], []⟩
      FTDB.initState,
   (C8_open_argument_validation none none 5000 rfl).2.1 ⟨[], []⟩ VCPB.initState⟩

/-- C9 counterexample: the FT422 4-channel board's `get_all_states`
returns all 8 GPIO bits — a vector of length 8 — although its
`max_channel` is 4. -/
theorem C9_ft422_vector_length :
    (FT422.get_all_states bbOps ⟨0, []⟩).1 =
      .ok [false, false, false, false, false, false, false, false] ∧
    ([false, false, false, false, false, false, false, false] : List Bool).length = 8 ∧
    FT422.max_channel = 4 ∧ (8 : Nat) ≠ 4 :=
  ⟨rfl, rfl, rfl, by decide⟩

/-- C9 (amended): the 16-, 8- and 4-channel-HID boards return state
vectors of length `max_channel`, all trues after `set_all_states_on` and
all falses after `set_all_states_off`; the FT422 4-channel board returns
the full 8-bit GPIO vector (length 8, not its `max_channel` = 4), all 8
entries true after all-on and false after all-off. -/
theorem C9_vector_lengths :
    (∀ b1 b2 : Nat, (D16.decode16 b1 b2).length = D16.max_channel) ∧
    (∀ s : Dev16.State,
      (D16.get_all_states Dev16.ops (D16.set_all_states_on Dev16.ops (some s)).2).1 =
        .ok (List.replicate 16 true)) ∧
    (∀ s : Dev16.State,
      (D16.get_all_states Dev16.ops (D16.set_all_states_off Dev16.ops (some s)).2).1 =
        .ok (List.replicate 16 false)) ∧
    (∀ s : BB, (D8.get_all_states bbOps (some s)).1 =
        .ok ((List.range 8).map (fun i => pyBitTest s.reg i)) ∧
      ((List.range 8).map (fun i => pyBitTest s.reg i)).length = D8.max_channel) ∧
    (∀ s : BB, (D8.get_all_states bbOps (D8.set_all_states_on bbOps (some s)).2).1 =
        .ok (List.replicate 8 true) ∧
      (D8.get_all_states bbOps (D8.set_all_states_off bbOps (some s)).2).1 =
        .ok (List.replicate 8 false)) ∧
    (∀ s : HIDDev, (MCP.get_all_states hidOps (some s)).1 =
        .ok ((List.range 4).map (fun i => pyBitTest s.port i)) ∧
      ((List.range 4).map (fun i => pyBitTest s.port i)).length = MCP.max_channel) ∧
    (∀ s : HIDDev,
      (MCP.get_all_states hidOps (MCP.set_all_states_on hidOps (some s)).2).1 =
        .ok (List.replicate 4 true) ∧
      (MCP.get_all_states hidOps (MCP.set_all_states_off hidOps (some s)).2).1 =
        .ok (List.replicate 4 false)) ∧
    (∀ s : BB, (FT422.get_all_states bbOps s).1 =
        .ok ((List.range 8).map (fun i => pyBitTest s.reg i)) ∧
      ((List.range 8).map (fun i => pyBitTest s.reg i)).length = 8 ∧
      FT422.max_channel = 4) ∧
    (∀ s : BB, (FT422.get_all_states bbOps (FT422.set_all_states_on bbOps s).2).1 =
        .ok (List.replicate 8 true) ∧
      (FT422.get_all_states bbOps (FT422.set_all_states_off bbOps s).2).1 =
        .ok (List.replicate 8 false)) := by
  refine ⟨fun b1 b2 => decode16_length b1 b2, fun s => ?_, fun s => ?_,
    fun s => ⟨rfl, rfl⟩,
    fun s =>
      ⟨show (Except.ok ((List.range 8).map (fun i => pyBitTest 255 i)) :
          Except Err (List Bool)) = Except.ok (List.replicate 8 true) from rfl,
       show (Except.ok ((List.range 8).map (fun i => pyBitTest 0 i)) :
          Except Err (List Bool)) = Except.ok (List.replicate 8 false) from rfl⟩,
    fun s => ⟨rfl, rfl⟩,
    fun s =>
      ⟨show (Except.ok ((List.range 4).map (fun i => pyBitTest 15 i)) :
          Except Err (List Bool)) = Except.ok (List.replicate 4 true) from rfl,
       show (Except.ok ((List.range 4).map (fun i => pyBitTest 0 i)) :
          Except Err (List Bool)) = Except.ok (List.replicate 4 false) from rfl⟩,
    fun s => ⟨rfl, rfl, rfl⟩,
    fun s =>
      ⟨show (Except.ok ((List.range 8).map (fun i => pyBitTest 255 i)) :
          Except Err (List Bool)) = Except.ok (List.replicate 8 true) from rfl,
       show (Except.ok ((List.range 8).map (fun i => pyBitTest 0 i)) :
          Except Err (List Bool)) = Except.ok (List.replicate 8 false) from rfl⟩⟩
  · have h2 : (D16.set_all_states_on Dev16.ops (some s)).2 =
        some ⟨List.replicate 16 true, (s.outbox ++ List.replicate 4 0).drop 4,
              s.trace ++ [Ev.write [0x6F, 0x6E, 0x2F, 0x2F]] ++ [Ev.read (some 4)]⟩ := rfl
    rw [h2, dev16_get_all_states _ (by simp)]
  · have h2 : (D16.set_all_states_off Dev16.ops (some s)).2 =
        some ⟨List.replicate 16 false, (s.outbox ++ List.replicate 5 0).drop 5,
              s.trace ++ [Ev.write [0x6F, 0x66, 0x66, 0x2F, 0x2F]] ++ [Ev.read (some 5)]⟩ := rfl
    rw [h2, dev16_get_all_states _ (by simp)]

/-- C10 counterexample: the 16-channel `set_state` with a single valid
address does not read the current state at all — it sends the dedicated
2-digit single-channel command; the trace holds no drain, no `ask//` and
no state read. -/
theorem C10_single_address_no_read :
    D16.set_state Dev16.ops true [3] (some ⟨List.replicate 16 false, [], []⟩) =
      (.ok (), some ⟨(List.replicate 16 false).set 2 true, [],
        [Ev.write [0x30, 0x33, 0x2B, 0x2F, 0x2F], Ev.read (some 5)]⟩) ∧
    Ev.write [0x61, 0x73, 0x6B, 0x2F, 0x2F] ∉
      ([Ev.write [0x30, 0x33, 0x2B, 0x2F, 0x2F], Ev.read (some 5)] : List Ev) ∧
    Ev.read none ∉
      ([Ev.write [0x30, 0x33, 0x2B, 0x2F, 0x2F], Ev.read (some 5)] : List Ev) :=
  ⟨rfl, by decide, by decide⟩

/-- C10 (amended): for every board family, `set_state(logic, addrs)` with
valid in-range addresses succeeds and modifies only the addressed
channels — every channel not in the list keeps its prior state.  The 8-,
4-channel-FT422 and 4-channel-HID boards do this by read-modify-write; the
16-channel board does it by read-modify-write for zero or two-or-more
distinct addresses and by a dedicated single-channel command (no read) for
exactly one. -/
theorem C10_set_state_frame :
    (∀ (d : Dev16.State) (logic : Bool) (addrs : List Int),
      d.word.length = 16 → (∀ a ∈ addrs, 1 ≤ a ∧ a ≤ (16 : Int)) →
      ∃ d' : Dev16.State, D16.set_state Dev16.ops logic addrs (some d) = (.ok (), some d') ∧
        d'.word.length = 16 ∧
        ∀ k : Nat, d'.word.getD k false =
          if ((k : Int) + 1) ∈ addrs then logic else d.word.getD k false) ∧
    (∀ (s : BB) (logic : Bool) (addrs : List Int),
      (∀ a ∈ addrs, 1 ≤ a ∧ a ≤ (8 : Int)) →
      ∃ s' : BB, D8.set_state bbOps logic addrs (some s) = (.ok (), some s') ∧
        ∀ k : Nat, k < 8 →
          s'.reg.testBit k = if ((k : Int) + 1) ∈ addrs then logic else s.reg.testBit k) ∧
    (∀ (s : BB) (logic : Bool) (addrs : List Int),
      (∀ a ∈ addrs, 1 ≤ a ∧ a ≤ (4 : Int)) →
      ∃ s' : BB, FT422.set_state bbOps logic addrs s = (.ok (), s') ∧
        ∀ k : Nat, k < 8 →
          s'.reg.testBit k = if ((k : Int) + 1) ∈ addrs then logic else s.reg.testBit k) ∧
    (∀ (s : HIDDev) (logic : Bool) (addrs : List Int),
      (∀ a ∈ addrs, 1 ≤ a ∧ a ≤ (4 : Int)) →
      ∃ s' : HIDDev, MCP.set_state hidOps logic addrs (some s) = (.ok (), some s') ∧
        ∀ k : Nat, k < 4 →
          s'.port.testBit k = if ((k : Int) + 1) ∈ addrs then logic else s.port.testBit k) :=
  ⟨d16_set_state_frame, d8_set_state_frame, ft422_set_state_frame, mcp_set_state_frame⟩

theorem C10_set_state_frame_witness :
    ∃ s' : BB, D8.set_state bbOps true [2] (some ⟨0, []⟩) = (.ok (), some s') ∧
      s'.reg.testBit 1 = true ∧ s'.reg.testBit 0 = false := by
  obtain ⟨s', h1, h2⟩ := C10_set_state_frame.2.1 ⟨0, []⟩ true [2] (by decide)
  refine ⟨s', h1, ?_, ?_⟩
  · simpa using h2 1 (by decide)
  · simpa using h2 0 (by decide)

/-- C4 (amended): if `open` succeeds and `set_bit_mode` fails, both
bit-bang board constructors propagate the error with the backend still
open; the only backend calls performed are the open and the failing
`set_bit_mode` — no close is issued before the error reaches the caller
(release is left to the boards' finalizers). -/
theorem C4_failed_bitmode_leaves_backend_open : ∀ be : CtorBE,
    D8.init ctorFailBE be =
      (.error (.runtimeError "FT_SetBitMode failed"),
       some ⟨true, be.trace ++ [Ev.nativeOpen "SN"] ++ [Ev.setBitMode 255 4]⟩) ∧
    FT422.init ctorFailBE be =
      (.error (.runtimeError "FT_SetBitMode failed"),
       ⟨true, be.trace ++ [Ev.nativeOpen "SN"] ++ [Ev.setBitMode 255 4]⟩) ∧
    Ev.nativeClose ∉ [Ev.nativeOpen "SN", Ev.setBitMode 255 4] :=
  fun be => ⟨rfl, rfl, by decide⟩

end Denkovi
